import Mathlib

/-!
Shallow embedding of the tramphim-games backend core
(`src/backend/app/routers/game.py`, `src/backend/app/scheduler.py`,
`src/backend/app/game_logic.py`, `src/backend/app/webhook_service.py`)
and proofs checking the natural-language specification against it.

Conventions of the embedding:
* Database rows become Lean structures; a `db.query(...).first()` lookup
  becomes an `Option` argument; the ordered history returned by the
  effective-wins query becomes a `List MatchStatus` argument (newest first).
* Wall-clock instants and float-valued durations are modelled as `Rat`
  (`datetime.utcnow()` becomes a `now : Rat` argument; `elapsed` is
  `now - created_at`).
* Python `int` is `Int` (scores, points) or `Nat` (counters, ids).
* An HTTP 4xx raised by `HTTPException` becomes `Except HErr`.
* `BackgroundTasks.add_task(WebhookService.send_game_result, ...)` becomes a
  `List WebhookCall` field of the result: the calls the handler dispatched.
-/

/-- Game session status, from `models.MatchStatus`. -/
inductive MatchStatus where
  | WIN
  | LOSE
  | ABANDONED
  | PLAYING
deriving DecidableEq, Repr

/-- Level configuration row, from `models.GameLevel`. -/
structure GameLevel where
  name : String
  card_count : Nat
  time_limit : Option Nat
  points_reward : Int
  points_penalty : Int
  is_active : Bool
deriving DecidableEq, Repr

/-- One card of the deck, an entry of `MatchHistory.cards_state`
(a JSON dict built by `game_logic.generate_cards`). -/
structure Card where
  id : Nat
  value : String
  matched : Bool
  flipped : Bool
  type : String
deriving DecidableEq, Repr

/-- Session row, from `models.MatchHistory`.  The `level` relationship is
inlined (every handler accesses `match.level` directly). -/
structure MatchHistory where
  id : Nat
  user_email : String
  level : GameLevel
  status : MatchStatus
  score : Int
  moves : Nat
  time_taken : Rat
  flip_duration : Rat
  consecutive_wins : Nat
  points_change : Option Int
  cards_state : List Card
  created_at : Rat
  completed_at : Option Rat
deriving DecidableEq, Repr

/-- Webhook configuration row, from `models.GameSettings`. -/
structure GameSettings where
  webhook_url : Option String
  webhook_secret : Option String
deriving DecidableEq, Repr

/-- Arguments of one dispatched `WebhookService.send_game_result` /
`send_webhook_sync` call. -/
structure WebhookCall where
  webhook_url : String
  webhook_secret : String
  game_id : Nat
  player_email : String
  won : Bool
  score : Int
  moves : Nat
  time_taken : Rat
  matches_found : Nat
  level_id : String
  points_change : Int
deriving DecidableEq, Repr

/-- Client-facing errors raised via `HTTPException`. -/
inductive HErr where
  | notFound (detail : String)
  | badRequest (detail : String)
deriving DecidableEq, Repr

/-- Number of WIN entries of a history list
(the `if games[i].status == WIN` counting loops of `game.py`). -/
def count_wins : List MatchStatus → Nat
  | [] => 0
  | g :: rest => (if g = MatchStatus.WIN then 1 else 0) + count_wins rest

/-- The scan of `calculate_effective_wins`: walk the newest-first history
with a consecutive-loss counter and return the index at which the counter
first reaches 5 (`reset_index`), if any.  Direct translation of the
`for i, game in enumerate(games)` loop of `game.py` lines 60-75. -/
def findResetIdx : List MatchStatus → Nat → Nat → Option Nat
  | [], _, _ => none
  | g :: rest, counter, i =>
    let c := if g = MatchStatus.LOSE then counter + 1 else 0
    if 5 ≤ c then some i else findResetIdx rest c (i + 1)

/-- Translation of `calculate_effective_wins` (game.py lines 34-99), as a function of the
query result: the player's terminal WIN/LOSE sessions on the level, ordered
newest first.  (`limit_index = reset_index - 4`, clamped at 0, which here is
Nat subtraction.) -/
def calculate_effective_wins (games : List MatchStatus) : Nat :=
  if games = [] then 0
  else
    let limit_index :=
      match findResetIdx games 0 0 with
      | none => games.length
      | some reset_index => reset_index - 4
    count_wins (games.take limit_index)

/-- Modelled from the spec's words (§4.2), for comparison with
`calculate_effective_wins`: the position of the newest run of 5 consecutive
losses, i.e. the least index at which 5 consecutive LOSE entries start. -/
def firstFiveLossStart : List MatchStatus → Option Nat
  | [] => none
  | g :: rest =>
    if List.take 5 (g :: rest) = List.replicate 5 MatchStatus.LOSE then some 0
    else (firstFiveLossStart rest).map (· + 1)

/-- Modelled from the spec's words (§4.2): if the history contains a run of
5 consecutive losses, count only the wins strictly newer than the newest
such run; otherwise count every win. -/
def spec_effective_wins (games : List MatchStatus) : Nat :=
  match firstFiveLossStart games with
  | none => count_wins games
  | some k => count_wins (games.take k)

/-- Translation of `calculate_flip_duration` (game.py lines 101-120). -/
def calculate_flip_duration (consecutive_wins : Nat) : Rat :=
  if consecutive_wins ≤ 1 then 0.6
  else
    let capped_wins := min consecutive_wins 10
    0.6 + ((capped_wins - 1 : Nat) : Rat) * 0.12

/-- Translation of `calculate_win_bonus` (game.py lines 122-127). -/
def calculate_win_bonus (consecutive_wins : Nat) : Int :=
  if consecutive_wins > 1 then 2 else 1

/-- Default used for bounds-checked list reads (never reached after the
index validation of `flip_card`). -/
def default_card : Card :=
  { id := 0, value := "", matched := false, flipped := false, type := "" }

/-- Python truthiness of `settings and settings.webhook_url` guarding every
webhook dispatch (absent row, absent URL, or empty URL all mean no). -/
def webhook_on (settings : Option GameSettings) : Bool :=
  match settings with
  | none => false
  | some s =>
    match s.webhook_url with
    | none => false
    | some u => u != ""

def settings_url : Option GameSettings → String
  | none => ""
  | some s => s.webhook_url.getD ""

/-- Python `settings.webhook_secret or ""` at every dispatch site. -/
def settings_secret : Option GameSettings → String
  | none => ""
  | some s => s.webhook_secret.getD ""

/-- Python truthiness of `match.level.time_limit` followed by
`elapsed > match.level.time_limit` — shared verbatim by `flip_card`
(game.py lines 185-188) and `check_game_timeouts` (scheduler.py
lines 109-116). -/
def time_limit_exceeded (m : MatchHistory) (now : Rat) : Bool :=
  match m.level.time_limit with
  | none => false
  | some tl => tl != 0 && decide ((tl : Rat) < now - m.created_at)

/-- The state change of the flip-path timeout branch (game.py lines
189-197): LOSE, stamp `completed_at`, `time_taken = elapsed`, and
`points_change = -(points_penalty * multiplier)`. -/
def flip_timeout_update (m : MatchHistory) (now : Rat) : MatchHistory :=
  { m with status := MatchStatus.LOSE, completed_at := some now,
           time_taken := now - m.created_at,
           points_change :=
             some (-(m.level.points_penalty * calculate_win_bonus m.consecutive_wins)) }

/-- The state change of the sweep's auto-fail (scheduler.py lines 117-120):
LOSE, stamp `completed_at`, `time_taken = elapsed` — and nothing else. -/
def sweep_fail_update (m : MatchHistory) (now : Rat) : MatchHistory :=
  { m with status := MatchStatus.LOSE, completed_at := some now,
           time_taken := now - m.created_at }

/-- Result of the flip endpoint: the session view, the `is_match` flag and
message of the JSON response, plus the webhook calls dispatched. -/
structure FlipOutcome where
  match_state : MatchHistory
  is_match : Bool
  message : String
  webhooks : List WebhookCall
deriving DecidableEq, Repr

/-- The card-comparison core of `flip_card` (game.py lines 227-323), after
the session, time-limit and index validations have passed; `i1 i2` are the
validated in-range distinct indices. -/
def process_flip (m : MatchHistory) (settings : Option GameSettings) (now : Rat)
    (i1 i2 : Nat) : FlipOutcome :=
  let cards := m.cards_state
  let c1 := cards.getD i1 default_card
  let c2 := cards.getD i2 default_card
  let win_bonus_multiplier := calculate_win_bonus m.consecutive_wins
  if c1.value = c2.value then
    let cards2 := (cards.set i1 { c1 with matched := true, flipped := true }).set i2
      { c2 with matched := true, flipped := true }
    let score2 := m.score + 10 * win_bonus_multiplier
    let moves2 := m.moves + 1
    let matched_count := cards2.countP (fun c => c.matched)
    if matched_count = cards2.length then
      let points_awarded := m.level.points_reward * win_bonus_multiplier
      let m2 := { m with
        cards_state := cards2, score := score2, moves := moves2,
        status := MatchStatus.WIN, completed_at := some now,
        time_taken := now - m.created_at,
        points_change := some points_awarded }
      { match_state := m2, is_match := true, message := "You Won!",
        webhooks :=
          if webhook_on settings then
            [{ webhook_url := settings_url settings,
               webhook_secret := settings_secret settings,
               game_id := m.id, player_email := m.user_email, won := true,
               score := m2.score, moves := m2.moves, time_taken := m2.time_taken,
               matches_found := matched_count / 2, level_id := m.level.name,
               points_change := points_awarded }]
          else [] }
    else
      { match_state := { m with cards_state := cards2, score := score2, moves := moves2 },
        is_match := true, message := "Match found!", webhooks := [] }
  else
    let cards2 := (cards.set i1 { c1 with flipped := false }).set i2
      { c2 with flipped := false }
    { match_state := { m with
        cards_state := cards2,
        score := max 0 (m.score - 2 * win_bonus_multiplier),
        moves := m.moves + 1 },
      is_match := false, message := "No match", webhooks := [] }

/-- The flip endpoint `flip_card` (game.py lines 174-323): lookup, status
guard, time-limit check, index validations, then the card comparison. -/
def flip_card (m? : Option MatchHistory) (settings : Option GameSettings)
    (now : Rat) (idx1 idx2 : Int) : Except HErr FlipOutcome :=
  match m? with
  | none => .error (.notFound "Match not found")
  | some m =>
    if m.status ≠ MatchStatus.PLAYING then .error (.badRequest "Game is over")
    else if time_limit_exceeded m now then
      .ok { match_state := flip_timeout_update m now, is_match := false,
            message := "Time\x27s up!", webhooks := [] }
    else if idx1 < 0 ∨ (m.cards_state.length : Int) ≤ idx1
        ∨ idx2 < 0 ∨ (m.cards_state.length : Int) ≤ idx2 then
      .error (.badRequest "Invalid card indices")
    else if idx1 = idx2 then
      .error (.badRequest "Cannot flip the same card twice")
    else if (m.cards_state.getD idx1.toNat default_card).matched
        ∨ (m.cards_state.getD idx2.toNat default_card).matched then
      .error (.badRequest "Card already matched")
    else .ok (process_flip m settings now idx1.toNat idx2.toNat)

/-- Result of the give-up endpoint. -/
structure GiveUpOutcome where
  match_state : MatchHistory
  message : String
  webhooks : List WebhookCall
deriving DecidableEq, Repr

/-- Translation of `give_up_game` (game.py lines 325-358): forces ABANDONED and stamps
`completed_at` on any found session; computes the penalty but only passes it
to the webhook — `match.points_change` is never assigned. -/
def give_up_game (m? : Option MatchHistory) (settings : Option GameSettings)
    (now : Rat) : Except HErr GiveUpOutcome :=
  match m? with
  | none => .error (.notFound "Match not found")
  | some m =>
    let m2 := { m with status := MatchStatus.ABANDONED, completed_at := some now }
    let win_bonus_multiplier := calculate_win_bonus m.consecutive_wins
    let penalty := m.level.points_penalty * win_bonus_multiplier
    .ok { match_state := m2, message := "Game abandoned",
          webhooks :=
            if webhook_on settings then
              [{ webhook_url := settings_url settings,
                 webhook_secret := settings_secret settings,
                 game_id := m.id, player_email := m.user_email, won := false,
                 score := m.score, moves := m.moves, time_taken := 0,
                 matches_found := 0, level_id := m.level.name,
                 points_change := -penalty }]
            else [] }

/-- Per-session effect of one sweep tick (`check_game_timeouts`,
scheduler.py lines 100-123): only PLAYING sessions with a truthy time limit
whose elapsed time exceeds it are auto-failed; everything else is left
untouched. -/
def sweep_update (m : MatchHistory) (now : Rat) : MatchHistory :=
  if m.status = MatchStatus.PLAYING ∧ time_limit_exceeded m now = true then
    sweep_fail_update m now
  else m

/-- The webhook the sweep sends for an auto-failed session (scheduler.py
lines 131-153), built from the post-commit row `m2`. -/
def sweep_webhook (settings : Option GameSettings) (m2 : MatchHistory) : WebhookCall :=
  { webhook_url := settings_url settings,
    webhook_secret := settings_secret settings,
    game_id := m2.id, player_email := m2.user_email, won := false,
    score := m2.score, moves := m2.moves, time_taken := m2.time_taken,
    matches_found := 0, level_id := m2.level.name,
    points_change := -(m2.level.points_penalty
      * (if m2.consecutive_wins > 1 then 2 else 1)) }

/-- One tick of `check_game_timeouts` over the whole session table: the
updated rows, and the webhook calls dispatched for the auto-failed ones. -/
def check_game_timeouts (games : List MatchHistory) (settings : Option GameSettings)
    (now : Rat) : List MatchHistory × List WebhookCall :=
  let updated := games.map (fun g => sweep_update g now)
  let failed := games.filterMap (fun g =>
    if g.status = MatchStatus.PLAYING ∧ time_limit_exceeded g now = true
    then some (sweep_fail_update g now) else none)
  (updated, if webhook_on settings then failed.map (sweep_webhook settings) else [])

/-- Translation of `start_game` (game.py lines 138-172) as a function of the level lookup
result, the player's newest-first WIN/LOSE history on the level, and the
generated deck; the database-assigned row id is modelled as 0. -/
def start_game (level? : Option GameLevel) (history : List MatchStatus)
    (deck : List Card) (player_email : String) (now : Rat) :
    Except HErr MatchHistory :=
  match level? with
  | none => .error (.notFound "Level not found")
  | some level =>
    let consecutive_wins := calculate_effective_wins history
    let flip_duration := calculate_flip_duration consecutive_wins
    .ok { id := 0, user_email := player_email, level := level,
          status := MatchStatus.PLAYING, score := 0, moves := 0, time_taken := 0,
          flip_duration := flip_duration, consecutive_wins := consecutive_wins,
          points_change := none, cards_state := deck, created_at := now,
          completed_at := none }

/-- The fallback icon palette `CARD_ICONS` of `game_logic.py` (note the
repeated circus-tent icon at positions 3 and 6). -/
def CARD_ICONS : List String :=
  ["🎮", "🎯", "🎲", "🎪", "🎨", "🎭", "🎪", "🎸",
   "⚽", "🏀", "🎾", "🏈", "⚾", "🎱", "🏐", "🏉",
   "🌟", "⭐", "✨", "💫", "🌙", "☀️", "🌈", "🔥",
   "🍎", "🍊", "🍋", "🍌", "🍉", "🍇", "🍓", "🍒"]

/-- The pair-value pool of `generate_cards` (game_logic.py lines 17-28):
cycle image URLs modulo their count, else take `card_count` entries of the
icon palette repeated often enough.  Always `card_count` values long. -/
def available_values (card_count : Nat) (images : List String) : List String :=
  if images.length > 0 then
    (List.range card_count).map (fun i => images.getD (i % images.length) "")
  else
    let icons_pool := (List.replicate (card_count / CARD_ICONS.length + 1) CARD_ICONS).flatten
    icons_pool.take card_count

/-- The two cards of pair `i` (game_logic.py lines 32-49). -/
def make_pair (i : Nat) (value : String) (is_image : Bool) : List Card :=
  [{ id := 2 * i, value := value, matched := false, flipped := false,
     type := if is_image then "image" else "icon" },
   { id := 2 * i + 1, value := value, matched := false, flipped := false,
     type := if is_image then "image" else "icon" }]

def make_pairs : List String → Nat → Bool → List Card
  | [], _, _ => []
  | v :: vs, i, is_image => make_pair i v is_image ++ make_pairs vs (i + 1) is_image

/-- Translation of `generate_cards` before the `random.shuffle` call (the shuffle is an
arbitrary permutation; theorems quantify over all permutations of this
deck). -/
def generate_cards (card_count : Nat) (images : List String) : List Card :=
  make_pairs (available_values card_count images) 0 (images.length > 0)

section EffectiveWinsProofs

/-- A pad of fewer than 5 losses contains no 5-loss run. -/
theorem firstFiveLossStart_replicate_lt (c : Nat) (hc : c < 5) :
    firstFiveLossStart (List.replicate c MatchStatus.LOSE) = none := by
  interval_cases c <;> simp [firstFiveLossStart, List.replicate]

/-- Skipping a short all-loss pad followed by a non-loss entry shifts the
first 5-loss-run index by the pad length plus one. -/
theorem firstFiveLossStart_pad_break (c : Nat) (hc : c < 5) (g : MatchStatus)
    (hg : g ≠ MatchStatus.LOSE) (t : List MatchStatus) :
    firstFiveLossStart (List.replicate c MatchStatus.LOSE ++ g :: t)
      = (firstFiveLossStart t).map (· + (c + 1)) := by
  induction c with
  | zero =>
    simp only [List.replicate, List.nil_append]
    have hne : List.take 5 (g :: t) ≠ List.replicate 5 MatchStatus.LOSE := by
      intro h
      have : (List.take 5 (g :: t)).head? = (List.replicate 5 MatchStatus.LOSE).head? :=
        congrArg List.head? h
      simp [List.take, List.replicate] at this
      exact hg this
    rw [firstFiveLossStart, if_neg hne]
  | succ c ih =>
    have hc' : c < 5 := Nat.lt_of_succ_lt hc
    have hc4 : c < 4 := by omega
    rw [List.replicate_succ, List.cons_append, firstFiveLossStart]
    have hcond : ¬ (List.take 5
        (MatchStatus.LOSE :: (List.replicate c MatchStatus.LOSE ++ g :: t))
          = List.replicate 5 MatchStatus.LOSE) := by
      intro h
      rw [List.take_succ_cons, List.replicate_succ, List.cons.injEq] at h
      have h4 := h.2
      interval_cases c <;> simp [List.replicate, hg] at h4
    rw [if_neg hcond, ih hc', Option.map_map]
    cases firstFiveLossStart t with
    | none => rfl
    | some k => simp [Function.comp]

/-- The consecutive-loss scan of `calculate_effective_wins` finds exactly the
newest 5-loss run: with a carry of `c` just-seen losses it behaves like the
first-5-loss-run search on the history prefixed by `c` losses, and reports
the index of the run's oldest loss (start + 4). -/
theorem findResetIdx_eq (l : List MatchStatus) : ∀ (c i : Nat), c < 5 →
    findResetIdx l c i
      = (firstFiveLossStart (List.replicate c MatchStatus.LOSE ++ l)).map
          (fun k => k + 4 - c + i) := by
  induction l with
  | nil =>
    intro c i hc
    simp [findResetIdx, firstFiveLossStart_replicate_lt c hc]
  | cons g t ih =>
    intro c i hc
    by_cases hg : g = MatchStatus.LOSE
    · subst hg
      by_cases hc4 : c = 4
      · subst hc4
        have h1 : firstFiveLossStart
            (List.replicate 4 MatchStatus.LOSE ++ MatchStatus.LOSE :: t) = some 0 := by
          simp [List.replicate, firstFiveLossStart]
        rw [h1]
        simp [findResetIdx]
      · have hlt : c < 4 := by omega
        have heq : List.replicate c MatchStatus.LOSE ++ MatchStatus.LOSE :: t
            = List.replicate (c + 1) MatchStatus.LOSE ++ t := by
          simp [List.replicate_succ', List.append_assoc]
        rw [heq]
        have h5 : ¬ (5 ≤ c + 1) := by omega
        have hstep : findResetIdx (MatchStatus.LOSE :: t) c i
            = findResetIdx t (c + 1) (i + 1) := by
          simp [findResetIdx, h5]
        rw [hstep, ih (c + 1) (i + 1) (by omega)]
        cases firstFiveLossStart (List.replicate (c + 1) MatchStatus.LOSE ++ t) with
        | none => rfl
        | some k => simp only [Option.map_some']; congr 1; omega
    · have hstep : findResetIdx (g :: t) c i = findResetIdx t 0 (i + 1) := by
        simp [findResetIdx, hg]
      rw [hstep, ih 0 (i + 1) (by omega),
        firstFiveLossStart_pad_break c hc g hg t]
      simp only [List.replicate, List.nil_append]
      cases firstFiveLossStart t with
      | none => rfl
      | some k => simp only [Option.map_some']; congr 1; omega

/-- The loop of `calculate_effective_wins` implements the spec's description:
wins strictly newer than the newest 5-loss run, or every win if none. -/
theorem calculate_effective_wins_eq_spec (games : List MatchStatus) :
    calculate_effective_wins games = spec_effective_wins games := by
  cases games with
  | nil => rfl
  | cons g t =>
    have h := findResetIdx_eq (g :: t) 0 0 (by omega)
    simp only [List.replicate, List.nil_append, Nat.sub_zero, Nat.add_zero] at h
    unfold calculate_effective_wins spec_effective_wins
    rw [if_neg (by simp), h]
    cases firstFiveLossStart (g :: t) with
    | none => simp [List.take_length]
    | some k =>
      simp only [Option.map_some']
      have h44 : k + 4 - 4 = k := by omega
      rw [h44]

end EffectiveWinsProofs

/-- Claim C1: the effective-wins computation equals the spec-side
description — on a newest-first terminal WIN/LOSE history, if the history
contains a run of 5 consecutive losses then only wins strictly newer than
the newest such run count, otherwise all wins count — and it yields 2 on
the history [WIN, WIN, LOSE, LOSE, LOSE, LOSE, LOSE, WIN, WIN] and 3 on
[WIN, LOSE, WIN, LOSE, WIN]. -/
theorem C1_effective_wins :
    (∀ games : List MatchStatus,
      calculate_effective_wins games = spec_effective_wins games)
    ∧ calculate_effective_wins
        [MatchStatus.WIN, MatchStatus.WIN, MatchStatus.LOSE, MatchStatus.LOSE,
         MatchStatus.LOSE, MatchStatus.LOSE, MatchStatus.LOSE,
         MatchStatus.WIN, MatchStatus.WIN] = 2
    ∧ calculate_effective_wins
        [MatchStatus.WIN, MatchStatus.LOSE, MatchStatus.WIN, MatchStatus.LOSE,
         MatchStatus.WIN] = 3 :=
  ⟨calculate_effective_wins_eq_spec, by decide, by decide⟩

section Fixtures

/-- A level with a 10-second time limit. -/
def lv_timed : GameLevel :=
  { name := "Level 1", card_count := 2, time_limit := some 10,
    points_reward := 10, points_penalty := 5, is_active := true }

/-- A level without a time limit. -/
def lv_free : GameLevel :=
  { name := "Free", card_count := 2, time_limit := none,
    points_reward := 10, points_penalty := 5, is_active := true }

/-- An existing but deactivated level. -/
def lv_inactive : GameLevel :=
  { name := "Old", card_count := 2, time_limit := none,
    points_reward := 10, points_penalty := 5, is_active := false }

/-- A two-pair deck. -/
def deck4 : List Card :=
  [{ id := 0, value := "A", matched := false, flipped := false, type := "icon" },
   { id := 1, value := "A", matched := false, flipped := false, type := "icon" },
   { id := 2, value := "B", matched := false, flipped := false, type := "icon" },
   { id := 3, value := "B", matched := false, flipped := false, type := "icon" }]

/-- A PLAYING session on the timed level, created at t = 0. -/
def m_to : MatchHistory :=
  { id := 1, user_email := "player@example.com", level := lv_timed,
    status := MatchStatus.PLAYING, score := 0, moves := 0, time_taken := 0,
    flip_duration := 0.6, consecutive_wins := 0, points_change := none,
    cards_state := deck4, created_at := 0, completed_at := none }

/-- A session already terminal with WIN. -/
def m_won : MatchHistory :=
  { id := 2, user_email := "player@example.com", level := lv_free,
    status := MatchStatus.WIN, score := 20, moves := 3, time_taken := 9,
    flip_duration := 0.6, consecutive_wins := 0, points_change := some 10,
    cards_state := deck4, created_at := 0, completed_at := some 9 }

/-- A PLAYING session entered with a 2-win streak (multiplier 2) on a
level with penaltyPoints = 5. -/
def m_streak : MatchHistory :=
  { id := 3, user_email := "player@example.com", level := lv_timed,
    status := MatchStatus.PLAYING, score := 4, moves := 2, time_taken := 0,
    flip_duration := 0.72, consecutive_wins := 2, points_change := none,
    cards_state := deck4, created_at := 0, completed_at := none }

/-- A PLAYING session on the un-timed level, for flip fixtures. -/
def m_play : MatchHistory :=
  { id := 4, user_email := "player@example.com", level := lv_free,
    status := MatchStatus.PLAYING, score := 0, moves := 0, time_taken := 0,
    flip_duration := 0.6, consecutive_wins := 0, points_change := none,
    cards_state := deck4, created_at := 0, completed_at := none }

/-- A configured webhook target. -/
def settings_on : Option GameSettings :=
  some { webhook_url := some "https://tramphim.example/hook",
         webhook_secret := some "s3cret" }

end Fixtures

/-- Claim C7 counterexample: an existing but inactive level is accepted by
`start_game` — the claimed NotFound for inactive levels does not happen. -/
theorem C7_cex_inactive_level_accepted :
    lv_inactive.is_active = false
    ∧ (start_game (some lv_inactive) [] [] "player@example.com" 0).isOk = true := by
  constructor
  · rfl
  · rfl

/-- Claim C7 (amended): `start_game` fails NotFound exactly when the level
lookup comes back empty; the `is_active` flag is never consulted, so any
found level — active or inactive — yields a PLAYING session with score 0
and moveCount 0. -/
theorem C7_start_game_characterization (level? : Option GameLevel)
    (history : List MatchStatus) (deck : List Card) (email : String) (now : Rat) :
    (level? = none →
      start_game level? history deck email now = .error (.notFound "Level not found"))
    ∧ (∀ level, level? = some level →
        ∃ m, start_game level? history deck email now = .ok m
          ∧ m.status = MatchStatus.PLAYING ∧ m.score = 0 ∧ m.moves = 0
          ∧ m.points_change = none ∧ m.completed_at = none ∧ m.level = level) := by
  constructor
  · intro h; subst h; rfl
  · intro level h; subst h
    exact ⟨_, rfl, rfl, rfl, rfl, rfl, rfl, rfl⟩

/-- Witness for C7: applying the characterization to the concrete inactive
level shows the session is created anyway. -/
theorem C7_start_game_characterization_witness :
    (start_game (some lv_inactive) [] [] "player@example.com" 0).isOk = true := by
  obtain ⟨m, hm, -, -, -, -, -, -⟩ :=
    (C7_start_game_characterization (some lv_inactive) [] []
      "player@example.com" 0).2 lv_inactive rfl
  rw [hm]
  rfl

/-- The function `process_flip` either transitions to WIN or leaves the status alone. -/
theorem process_flip_status (m : MatchHistory) (stg : Option GameSettings)
    (now : Rat) (i1 i2 : Nat) :
    (process_flip m stg now i1 i2).match_state.status = MatchStatus.WIN
    ∨ (process_flip m stg now i1 i2).match_state.status = m.status := by
  simp only [process_flip]
  split_ifs <;> simp

/-- Unfolding equation of `flip_card` on a found session. -/
theorem flip_card_some (m : MatchHistory) (stg : Option GameSettings)
    (now : Rat) (idx1 idx2 : Int) :
    flip_card (some m) stg now idx1 idx2 =
      (if m.status ≠ MatchStatus.PLAYING then .error (.badRequest "Game is over")
       else if time_limit_exceeded m now = true then
         .ok { match_state := flip_timeout_update m now, is_match := false,
               message := "Time\x27s up!", webhooks := [] }
       else if idx1 < 0 ∨ (m.cards_state.length : Int) ≤ idx1
           ∨ idx2 < 0 ∨ (m.cards_state.length : Int) ≤ idx2 then
         .error (.badRequest "Invalid card indices")
       else if idx1 = idx2 then
         .error (.badRequest "Cannot flip the same card twice")
       else if (m.cards_state.getD idx1.toNat default_card).matched
           ∨ (m.cards_state.getD idx2.toNat default_card).matched then
         .error (.badRequest "Card already matched")
       else .ok (process_flip m stg now idx1.toNat idx2.toNat)) := rfl

/-- A successful flip call means the session was PLAYING, and the result is
either the timeout outcome or the card-comparison outcome. -/
theorem flip_card_ok_cases (m : MatchHistory) (stg : Option GameSettings)
    (now : Rat) (idx1 idx2 : Int) (r : FlipOutcome)
    (h : flip_card (some m) stg now idx1 idx2 = .ok r) :
    m.status = MatchStatus.PLAYING
    ∧ (r = { match_state := flip_timeout_update m now, is_match := false,
             message := "Time\x27s up!", webhooks := [] }
       ∨ r = process_flip m stg now idx1.toNat idx2.toNat) := by
  rw [flip_card_some] at h
  by_cases hs : m.status = MatchStatus.PLAYING
  · refine ⟨hs, ?_⟩
    rw [if_neg (by simp [hs])] at h
    by_cases ht : time_limit_exceeded m now = true
    · rw [if_pos ht] at h
      injection h with h2
      exact Or.inl h2.symm
    · rw [if_neg ht] at h
      split_ifs at h
      injection h with h2
      exact Or.inr h2.symm
  · rw [if_pos hs] at h
    cases h

/-- Claim C5 counterexample: give-up on a session already terminal with WIN
rewrites its status to ABANDONED — a terminal state is reversed. -/
theorem C5_cex_give_up_overwrites_win :
    m_won.status = MatchStatus.WIN
    ∧ ((give_up_game (some m_won) none 12).map (fun r => r.match_state.status))
        = .ok MatchStatus.ABANDONED := by
  exact ⟨rfl, rfl⟩

/-- Claim C5 (amended): flip and the sweep are monotonic — flip rejects any
non-PLAYING session unchanged, a successful flip comes from a PLAYING
session and ends PLAYING, WIN or LOSE, and the sweep leaves non-PLAYING
sessions untouched and moves PLAYING ones at most to LOSE.  give-up,
however, forces ABANDONED on every existing session, terminal ones
included, so a terminal status can be overwritten. -/
theorem C5_status_transition_discipline :
    (∀ m stg now i j, m.status ≠ MatchStatus.PLAYING →
        flip_card (some m) stg now i j = .error (.badRequest "Game is over"))
    ∧ (∀ m stg now i j r, flip_card (some m) stg now i j = .ok r →
        m.status = MatchStatus.PLAYING
        ∧ (r.match_state.status = MatchStatus.PLAYING
           ∨ r.match_state.status = MatchStatus.WIN
           ∨ r.match_state.status = MatchStatus.LOSE))
    ∧ (∀ m now, m.status ≠ MatchStatus.PLAYING → sweep_update m now = m)
    ∧ (∀ m now, (sweep_update m now).status = m.status
        ∨ (m.status = MatchStatus.PLAYING
           ∧ (sweep_update m now).status = MatchStatus.LOSE))
    ∧ (∀ m stg now r, give_up_game (some m) stg now = .ok r →
        r.match_state.status = MatchStatus.ABANDONED) := by
  refine ⟨?_, ?_, ?_, ?_, ?_⟩
  · intro m stg now i j hm
    rw [flip_card_some, if_pos hm]
  · intro m stg now i j r h
    obtain ⟨hs, hcase⟩ := flip_card_ok_cases m stg now i j r h
    refine ⟨hs, ?_⟩
    rcases hcase with hr | hr
    · subst hr
      right; right; rfl
    · subst hr
      rcases process_flip_status m stg now i.toNat j.toNat with hw | hsame
      · right; left; exact hw
      · left; rw [hsame, hs]
  · intro m now hm
    unfold sweep_update
    rw [if_neg (fun hc => hm hc.1)]
  · intro m now
    unfold sweep_update
    split_ifs with hc
    · exact Or.inr ⟨hc.1, rfl⟩
    · exact Or.inl rfl
  · intro m stg now r h
    simp only [give_up_game] at h
    injection h with h2
    rw [← h2]

/-- Witness for C5: flipping on the already-won session is rejected with
the InvalidState error and no state change. -/
theorem C5_status_transition_discipline_witness :
    flip_card (some m_won) settings_on 12 0 1
      = .error (.badRequest "Game is over") :=
  C5_status_transition_discipline.1 m_won settings_on 12 0 1 (by decide)

/-- Claim C3 counterexample: on a session with penaltyPoints = 5 and
multiplier 2, give-up leaves the session's pointsChange unset (None), not
−10 — the −10 exists only in the webhook payload. -/
theorem C3_cex_points_change_not_stored :
    m_streak.level.points_penalty = 5
    ∧ calculate_win_bonus m_streak.consecutive_wins = 2
    ∧ ((give_up_game (some m_streak) settings_on 9).map
        (fun r => r.match_state.points_change)) = .ok none := by
  exact ⟨rfl, rfl, rfl⟩

/-- Claim C3 (amended): give-up fails NotFound exactly when the session is
missing; on any existing session it forces ABANDONED and stamps completedAt,
computes −(penaltyPoints × multiplier) and reports it as the notification's
pointsChange (−10 when penaltyPoints = 5 and multiplier = 2), but leaves
the session's own pointsChange field unchanged. -/
theorem C3_give_up_behavior :
    (∀ stg now, give_up_game none stg now = .error (.notFound "Match not found"))
    ∧ (∀ m stg now, give_up_game (some m) stg now
        = .ok { match_state := { m with
                  status := MatchStatus.ABANDONED,
                  completed_at := some now },
                message := "Game abandoned",
                webhooks :=
                  if webhook_on stg then
                    [{ webhook_url := settings_url stg,
                       webhook_secret := settings_secret stg,
                       game_id := m.id, player_email := m.user_email, won := false,
                       score := m.score, moves := m.moves, time_taken := 0,
                       matches_found := 0, level_id := m.level.name,
                       points_change := -(m.level.points_penalty
                         * calculate_win_bonus m.consecutive_wins) }]
                  else [] })
    ∧ ((give_up_game (some m_streak) settings_on 9).map
        (fun r => (r.match_state.points_change,
                   r.webhooks.map (fun w => w.points_change))))
        = .ok (none, [-10]) := by
  refine ⟨fun stg now => rfl, fun m stg now => rfl, rfl⟩

/-- The function `process_flip` either performs the complete WIN transition (status,
completedAt, pointsChange together) or touches none of those fields. -/
theorem process_flip_cases (m : MatchHistory) (stg : Option GameSettings)
    (now : Rat) (i1 i2 : Nat) :
    ((process_flip m stg now i1 i2).match_state.status = MatchStatus.WIN
      ∧ (process_flip m stg now i1 i2).match_state.completed_at = some now
      ∧ (process_flip m stg now i1 i2).match_state.points_change
          = some (m.level.points_reward * calculate_win_bonus m.consecutive_wins))
    ∨ ((process_flip m stg now i1 i2).match_state.status = m.status
      ∧ (process_flip m stg now i1 i2).match_state.completed_at = m.completed_at
      ∧ (process_flip m stg now i1 i2).match_state.points_change = m.points_change) := by
  simp only [process_flip]
  split_ifs <;> simp

/-- The fixture session `m_to` has exceeded its 10-second limit at t = 11. -/
theorem m_to_exceeded : time_limit_exceeded m_to 11 = true := by
  simp only [time_limit_exceeded, m_to, lv_timed]
  norm_num

/-- Claim C4 counterexample: the sweep's auto-fail transition stamps
completedAt on a PLAYING session but leaves pointsChange unset — a
transition that sets completedAt without writing pointsChange. -/
theorem C4_cex_sweep_completed_without_points :
    m_to.status = MatchStatus.PLAYING
    ∧ m_to.completed_at = none
    ∧ (sweep_update m_to 11).completed_at = some 11
    ∧ (sweep_update m_to 11).points_change = none := by
  have hsw : sweep_update m_to 11 = sweep_fail_update m_to 11 := by
    unfold sweep_update
    rw [if_pos ⟨rfl, m_to_exceeded⟩]
  exact ⟨rfl, rfl, by rw [hsw]; rfl, by rw [hsw]; rfl⟩

/-- Claim C4 (amended): pointsChange stays absent while a session keeps
PLAYING, and the flip paths (win, timeout) write it exactly at the
transition that stamps completedAt; but the sweep's auto-fail and give-up
stamp completedAt while never writing pointsChange. -/
theorem C4_points_change_write_discipline :
    (∀ m stg now i j r, m.points_change = none → m.completed_at = none →
        flip_card (some m) stg now i j = .ok r →
        ((r.match_state.points_change = none ∧ r.match_state.completed_at = none
            ∧ r.match_state.status = m.status)
          ∨ (r.match_state.points_change.isSome = true
            ∧ r.match_state.completed_at = some now
            ∧ r.match_state.status ≠ MatchStatus.PLAYING)))
    ∧ (∀ m now, (sweep_update m now).points_change = m.points_change)
    ∧ (∀ m stg now, ((give_up_game (some m) stg now).map
        (fun r => r.match_state.points_change)) = .ok m.points_change)
    ∧ (∀ lv hist deck email now m,
        start_game (some lv) hist deck email now = .ok m →
        m.points_change = none ∧ m.completed_at = none) := by
  refine ⟨?_, ?_, ?_, ?_⟩
  · intro m stg now i j r hpc hca h
    obtain ⟨hs, hcase⟩ := flip_card_ok_cases m stg now i j r h
    rcases hcase with hr | hr
    · subst hr
      right
      refine ⟨rfl, rfl, ?_⟩
      intro hcontra
      exact absurd hcontra (by simp [flip_timeout_update])
    · subst hr
      rcases process_flip_cases m stg now i.toNat j.toNat with ⟨h1, h2, h3⟩ | ⟨h1, h2, h3⟩
      · right
        refine ⟨by simp [h3], h2, by rw [h1]; simp⟩
      · left
        exact ⟨by rw [h3, hpc], by rw [h2, hca], h1⟩
  · intro m now
    unfold sweep_update
    split_ifs with hc
    · rfl
    · rfl
  · intro m stg now
    rfl
  · intro lv hist deck email now m h
    simp only [start_game] at h
    injection h with h2
    rw [← h2]
    exact ⟨rfl, rfl⟩

/-- Witness for C4: a non-matching flip on a fresh PLAYING session leaves
pointsChange absent. -/
theorem C4_points_change_write_discipline_witness :
    (process_flip m_play none 1 0 2).match_state.points_change = none := by
  have h := C4_points_change_write_discipline.1 m_play none 1 0 2
      (process_flip m_play none 1 0 2) rfl rfl (by rfl)
  rcases h with ⟨h1, -, -⟩ | ⟨-, -, h3⟩
  · exact h1
  · exact absurd (by decide) h3

/-- Claim C2 counterexample: at t = 11, flipping on the timed-out session
`m_to` performs the Lose transition with pointsChange −5 but dispatches no
webhook even though one is configured, while the sweep's transition on the
same session dispatches the webhook but leaves pointsChange unset — the two
paths do not apply the same transition, and the flip path never notifies. -/
theorem C2_cex_flip_timeout_without_webhook :
    webhook_on settings_on = true
    ∧ ((flip_card (some m_to) settings_on 11 0 1).map (fun r => r.webhooks)) = .ok []
    ∧ (flip_timeout_update m_to 11).points_change = some (-5)
    ∧ (check_game_timeouts [m_to] settings_on 11).1 = [sweep_fail_update m_to 11]
    ∧ (sweep_fail_update m_to 11).points_change = none
    ∧ (check_game_timeouts [m_to] settings_on 11).2
        = [sweep_webhook settings_on (sweep_fail_update m_to 11)] := by
  have hstat : m_to.status = MatchStatus.PLAYING := rfl
  have hflip : flip_card (some m_to) settings_on 11 0 1
      = .ok { match_state := flip_timeout_update m_to 11, is_match := false,
              message := "Time\x27s up!", webhooks := [] } := by
    rw [flip_card_some, if_neg (fun hne => hne hstat), if_pos m_to_exceeded]
  have hcond : (m_to.status = MatchStatus.PLAYING
      ∧ time_limit_exceeded m_to 11 = true) := ⟨hstat, m_to_exceeded⟩
  have hsw : sweep_update m_to 11 = sweep_fail_update m_to 11 := by
    unfold sweep_update
    rw [if_pos hcond]
  refine ⟨rfl, ?_, rfl, ?_, rfl, ?_⟩
  · rw [hflip]
    rfl
  · simp only [check_game_timeouts, List.map_cons, List.map_nil, hsw]
  · simp only [check_game_timeouts, List.filterMap_cons, List.filterMap_nil]
    rw [if_pos hcond]
    rfl

/-- Claim C2 (amended): a flip on a Playing session past its level's time
limit is not processed: the session atomically becomes Lose with completedAt
stamped, timeTaken = elapsed and pointsChange = −(penaltyPoints ×
multiplier), but the flip path dispatches no webhook; the sweep applies the
same Lose/completedAt/timeTaken change while leaving pointsChange unset,
and it alone dispatches the won = false, matchesFound = 0 notification. -/
theorem C2_flip_timeout_vs_sweep (m : MatchHistory) (stg : Option GameSettings)
    (now : Rat) (idx1 idx2 : Int) (tl : Nat)
    (hstat : m.status = MatchStatus.PLAYING)
    (hlim : m.level.time_limit = some tl) (htl : tl ≠ 0)
    (hex : (tl : Rat) < now - m.created_at) :
    flip_card (some m) stg now idx1 idx2
      = .ok { match_state := flip_timeout_update m now, is_match := false,
              message := "Time\x27s up!", webhooks := [] }
    ∧ flip_timeout_update m now
        = { m with
            status := MatchStatus.LOSE, completed_at := some now,
            time_taken := now - m.created_at,
            points_change := some (-(m.level.points_penalty
              * calculate_win_bonus m.consecutive_wins)) }
    ∧ sweep_update m now = sweep_fail_update m now
    ∧ sweep_fail_update m now
        = { m with
            status := MatchStatus.LOSE, completed_at := some now,
            time_taken := now - m.created_at }
    ∧ (sweep_fail_update m now).points_change = m.points_change
    ∧ (webhook_on stg = true →
        (check_game_timeouts [m] stg now).2
          = [sweep_webhook stg (sweep_fail_update m now)])
    ∧ (sweep_webhook stg (sweep_fail_update m now)).won = false
    ∧ (sweep_webhook stg (sweep_fail_update m now)).matches_found = 0
    ∧ (sweep_webhook stg (sweep_fail_update m now)).points_change
        = -(m.level.points_penalty * calculate_win_bonus m.consecutive_wins) := by
  have hto : time_limit_exceeded m now = true := by
    unfold time_limit_exceeded
    rw [hlim]
    simp [htl, hex]
  refine ⟨?_, rfl, ?_, rfl, rfl, ?_, rfl, rfl, ?_⟩
  · rw [flip_card_some, if_neg (by simp [hstat]), if_pos hto]
  · unfold sweep_update
    rw [if_pos ⟨hstat, hto⟩]
  · intro hw
    have hcond : m.status = MatchStatus.PLAYING ∧ time_limit_exceeded m now = true :=
      ⟨hstat, hto⟩
    simp only [check_game_timeouts, List.filterMap_cons, List.filterMap_nil, hw,
      if_true, if_pos hcond]
    rfl
  · simp [sweep_webhook, sweep_fail_update, calculate_win_bonus]

/-- Witness for C2: the timed-out fixture, flipped with arbitrary indices,
takes the Lose transition with no webhook dispatched. -/
theorem C2_flip_timeout_vs_sweep_witness :
    flip_card (some m_to) settings_on 11 (-3) 99
      = .ok { match_state := flip_timeout_update m_to 11, is_match := false,
              message := "Time\x27s up!", webhooks := [] } :=
  (C2_flip_timeout_vs_sweep m_to settings_on 11 (-3) 99 10 rfl rfl
    (by norm_num) (by norm_num [m_to])).1

/-- Claim C10: in `flip_card`, the time-limit check strictly precedes all
request validation — on a Playing session past its limit, every flip
request, with indices out of range, negative, or duplicated, returns the
normal timeout response and never an InvalidRequest error. -/
theorem C10_timeout_precedes_validation (m : MatchHistory)
    (stg : Option GameSettings) (now : Rat) (idx1 idx2 : Int) (tl : Nat)
    (hstat : m.status = MatchStatus.PLAYING)
    (hlim : m.level.time_limit = some tl) (htl : tl ≠ 0)
    (hex : (tl : Rat) < now - m.created_at) :
    flip_card (some m) stg now idx1 idx2
      = .ok { match_state := flip_timeout_update m now, is_match := false,
              message := "Time\x27s up!", webhooks := [] } := by
  have hto : time_limit_exceeded m now = true := by
    unfold time_limit_exceeded
    rw [hlim]
    simp [htl, hex]
  rw [flip_card_some, if_neg (by simp [hstat]), if_pos hto]

/-- Witness for C10: duplicated out-of-range indices (7, 7) on the
timed-out fixture still return the timeout response, not a 400. -/
theorem C10_timeout_precedes_validation_witness :
    flip_card (some m_to) none 11 7 7
      = .ok { match_state := flip_timeout_update m_to 11, is_match := false,
              message := "Time\x27s up!", webhooks := [] } :=
  C10_timeout_precedes_validation m_to none 11 7 7 10 rfl rfl
    (by norm_num) (by norm_num [m_to])

/-- Reading back the first of two distinct updated positions. -/
theorem getD_set_set_fst (l : List Card) (i j : Nat) (a b : Card)
    (hij : i ≠ j) (hi : i < l.length) :
    ((l.set i a).set j b).getD i default_card = a := by
  rw [List.getD_eq_getElem?_getD, List.getElem?_set_ne (Ne.symm hij),
    List.getElem?_set_self', List.getElem?_eq_getElem hi]
  rfl

/-- Reading back the second of two distinct updated positions. -/
theorem getD_set_set_snd (l : List Card) (i j : Nat) (a b : Card)
    (hj : j < l.length) :
    ((l.set i a).set j b).getD j default_card = b := by
  have hj' : j < (l.set i a).length := by simpa using hj
  rw [List.getD_eq_getElem?_getD, List.getElem?_set_self',
    List.getElem?_eq_getElem hj']
  rfl

/-- Equal-value branch of `process_flip`: `is_match`, move count, score and
the updated deck, whether or not the win condition also fires. -/
theorem process_flip_match_core (m : MatchHistory) (stg : Option GameSettings)
    (now : Rat) (i1 i2 : Nat)
    (hv : (m.cards_state.getD i1 default_card).value
        = (m.cards_state.getD i2 default_card).value) :
    (process_flip m stg now i1 i2).is_match = true
    ∧ (process_flip m stg now i1 i2).match_state.moves = m.moves + 1
    ∧ (process_flip m stg now i1 i2).match_state.score
        = m.score + 10 * calculate_win_bonus m.consecutive_wins
    ∧ (process_flip m stg now i1 i2).match_state.cards_state
        = (m.cards_state.set i1 { m.cards_state.getD i1 default_card with
             matched := true, flipped := true }).set i2
            { m.cards_state.getD i2 default_card with
              matched := true, flipped := true } := by
  simp only [process_flip]
  rw [if_pos hv]
  split_ifs <;> exact ⟨rfl, rfl, rfl, rfl⟩

/-- Unequal-value branch of `process_flip`. -/
theorem process_flip_mismatch_core (m : MatchHistory) (stg : Option GameSettings)
    (now : Rat) (i1 i2 : Nat)
    (hv : (m.cards_state.getD i1 default_card).value
        ≠ (m.cards_state.getD i2 default_card).value) :
    (process_flip m stg now i1 i2).is_match = false
    ∧ (process_flip m stg now i1 i2).match_state.moves = m.moves + 1
    ∧ (process_flip m stg now i1 i2).match_state.score
        = max 0 (m.score - 2 * calculate_win_bonus m.consecutive_wins)
    ∧ (process_flip m stg now i1 i2).match_state.cards_state
        = (m.cards_state.set i1 { m.cards_state.getD i1 default_card with
             flipped := false }).set i2
            { m.cards_state.getD i2 default_card with flipped := false } := by
  simp only [process_flip]
  rw [if_neg hv]
  exact ⟨rfl, rfl, rfl, rfl⟩

/-- Claim C8: a valid flip of two distinct unmatched in-range positions on
a PLAYING session within the time limit succeeds; equal values give
matched = true, both cards matched and face-up, moveCount + 1 and
score + 10 × multiplier with no floor; unequal values give matched = false,
both cards face-down, moveCount + 1 and score = max(0, score − 2 ×
multiplier). -/
theorem C8_flip_pair_semantics (m : MatchHistory) (stg : Option GameSettings)
    (now : Rat) (i1 i2 : Nat)
    (hstat : m.status = MatchStatus.PLAYING)
    (hto : time_limit_exceeded m now = false)
    (h1 : i1 < m.cards_state.length) (h2 : i2 < m.cards_state.length)
    (hne : i1 ≠ i2)
    (hm1 : (m.cards_state.getD i1 default_card).matched = false)
    (hm2 : (m.cards_state.getD i2 default_card).matched = false) :
    flip_card (some m) stg now (i1 : Int) (i2 : Int)
      = .ok (process_flip m stg now i1 i2)
    ∧ (process_flip m stg now i1 i2).match_state.moves = m.moves + 1
    ∧ ((m.cards_state.getD i1 default_card).value
          = (m.cards_state.getD i2 default_card).value →
        (process_flip m stg now i1 i2).is_match = true
        ∧ ((process_flip m stg now i1 i2).match_state.cards_state.getD i1
            default_card).matched = true
        ∧ ((process_flip m stg now i1 i2).match_state.cards_state.getD i1
            default_card).flipped = true
        ∧ ((process_flip m stg now i1 i2).match_state.cards_state.getD i2
            default_card).matched = true
        ∧ ((process_flip m stg now i1 i2).match_state.cards_state.getD i2
            default_card).flipped = true
        ∧ (process_flip m stg now i1 i2).match_state.score
            = m.score + 10 * calculate_win_bonus m.consecutive_wins)
    ∧ ((m.cards_state.getD i1 default_card).value
          ≠ (m.cards_state.getD i2 default_card).value →
        (process_flip m stg now i1 i2).is_match = false
        ∧ ((process_flip m stg now i1 i2).match_state.cards_state.getD i1
            default_card).flipped = false
        ∧ ((process_flip m stg now i1 i2).match_state.cards_state.getD i2
            default_card).flipped = false
        ∧ (process_flip m stg now i1 i2).match_state.score
            = max 0 (m.score - 2 * calculate_win_bonus m.consecutive_wins)) := by
  refine ⟨?_, ?_, ?_, ?_⟩
  · have hidx : ¬ ((i1 : Int) < 0 ∨ (m.cards_state.length : Int) ≤ (i1 : Int)
        ∨ (i2 : Int) < 0 ∨ (m.cards_state.length : Int) ≤ (i2 : Int)) := by
      push_neg
      omega
    have hdup : ¬ ((i1 : Int) = (i2 : Int)) := by
      exact_mod_cast hne
    have hmm : ¬ ((m.cards_state.getD ((i1 : Int)).toNat default_card).matched
        ∨ (m.cards_state.getD ((i2 : Int)).toNat default_card).matched) := by
      have hm1' := hm1
      have hm2' := hm2
      simp only [List.getD_eq_getElem?_getD] at hm1' hm2'
      simp [Int.toNat_natCast, hm1', hm2']
    rw [flip_card_some, if_neg (fun hcon => hcon hstat), if_neg (by simp [hto]),
      if_neg hidx, if_neg hdup, if_neg hmm]
    simp [Int.toNat_natCast]
  · rcases Decidable.em ((m.cards_state.getD i1 default_card).value
        = (m.cards_state.getD i2 default_card).value) with hv | hv
    · exact (process_flip_match_core m stg now i1 i2 hv).2.1
    · exact (process_flip_mismatch_core m stg now i1 i2 hv).2.1
  · intro hv
    obtain ⟨ha, -, hc, hd⟩ := process_flip_match_core m stg now i1 i2 hv
    refine ⟨ha, ?_, ?_, ?_, ?_, hc⟩
    · rw [hd, getD_set_set_fst _ _ _ _ _ hne h1]
    · rw [hd, getD_set_set_fst _ _ _ _ _ hne h1]
    · rw [hd, getD_set_set_snd _ _ _ _ _ h2]
    · rw [hd, getD_set_set_snd _ _ _ _ _ h2]
  · intro hv
    obtain ⟨ha, -, hc, hd⟩ := process_flip_mismatch_core m stg now i1 i2 hv
    refine ⟨ha, ?_, ?_, hc⟩
    · rw [hd, getD_set_set_fst _ _ _ _ _ hne h1]
    · rw [hd, getD_set_set_snd _ _ _ _ _ h2]

/-- Witness for C8: on the fresh fixture deck [A, A, B, B], flipping (0, 1)
matches and flipping (0, 2) does not. -/
theorem C8_flip_pair_semantics_witness :
    flip_card (some m_play) none 1 0 1 = .ok (process_flip m_play none 1 0 1)
    ∧ (process_flip m_play none 1 0 1).is_match = true
    ∧ (process_flip m_play none 1 0 2).is_match = false := by
  refine ⟨(C8_flip_pair_semantics m_play none 1 0 1 rfl rfl (by decide) (by decide)
      (by decide) (by decide) (by decide)).1, ?_, ?_⟩
  · exact ((C8_flip_pair_semantics m_play none 1 0 1 rfl rfl (by decide) (by decide)
      (by decide) (by decide) (by decide)).2.2.1 (by decide)).1
  · exact ((C8_flip_pair_semantics m_play none 1 0 2 rfl rfl (by decide) (by decide)
      (by decide) (by decide) (by decide)).2.2.2 (by decide)).1

/-- Number of cards holding face value `v`. -/
def count_value (cs : List Card) (v : String) : Nat :=
  cs.countP (fun c => c.value == v)

/-- Number of occurrences of `v` in a value pool. -/
def count_str (ss : List String) (v : String) : Nat :=
  ss.countP (fun s => s == v)

theorem make_pairs_length (vs : List String) (b : Bool) :
    ∀ i, (make_pairs vs i b).length = 2 * vs.length := by
  induction vs with
  | nil => intro i; rfl
  | cons v vs ih =>
    intro i
    simp only [make_pairs, make_pair, List.cons_append, List.nil_append,
      List.length_cons, ih (i + 1)]
    omega

theorem make_pairs_count (vs : List String) (b : Bool) (v : String) :
    ∀ i, count_value (make_pairs vs i b) v = 2 * count_str vs v := by
  induction vs with
  | nil => intro i; rfl
  | cons u vs ih =>
    intro i
    simp only [make_pairs, make_pair, count_value, count_str, List.countP_append,
      List.countP_cons, List.countP_nil] at ih ⊢
    rw [ih (i + 1)]
    cases h : (u == v) <;> simp <;> omega

theorem make_pairs_flags (vs : List String) (b : Bool) :
    ∀ i, ∀ c ∈ make_pairs vs i b, c.matched = false ∧ c.flipped = false := by
  induction vs with
  | nil => intro i c hc; cases hc
  | cons u vs ih =>
    intro i c hc
    simp only [make_pairs, make_pair, List.cons_append, List.nil_append,
      List.mem_cons] at hc
    rcases hc with h | h | h
    · subst h; exact ⟨rfl, rfl⟩
    · subst h; exact ⟨rfl, rfl⟩
    · exact ih (i + 1) c h

theorem available_values_length (card_count : Nat) (images : List String) :
    (available_values card_count images).length = card_count := by
  unfold available_values
  split_ifs with h
  · simp
  · rw [List.length_take]
    have hpool : ((List.replicate (card_count / CARD_ICONS.length + 1)
        CARD_ICONS).flatten).length
        = (card_count / 32 + 1) * 32 := by
      rw [List.length_flatten, List.map_replicate, List.sum_replicate, smul_eq_mul]
      rfl
    rw [hpool]
    have hdm := Nat.div_add_mod card_count 32
    have hlt : card_count % 32 < 32 := Nat.mod_lt _ (by omega)
    omega

theorem generate_cards_length (card_count : Nat) (images : List String) :
    (generate_cards card_count images).length = 2 * card_count := by
  unfold generate_cards
  rw [make_pairs_length, available_values_length]

/-- Claim C6 counterexample: with pairCount = 2 and one image asset, the
single URL is used for both pairs, so that pairValue occurs 4 times, not
twice; the icon fallback repeats the circus-tent icon the same way at
pairCount = 7. -/
theorem C6_cex_value_occurs_four_times :
    (generate_cards 2 ["u"]).length = 2 * 2
    ∧ count_value (generate_cards 2 ["u"]) "u" = 4
    ∧ count_value (generate_cards 7 []) "🎪" = 4 := by
  refine ⟨rfl, rfl, ?_⟩
  decide

/-- Claim C6 (amended): for every pairCount > 0 and image list, and every
shuffle (permutation) of the generated deck, the deck length is exactly
2 × pairCount and all cards are created face-down and unmatched; each value
occurs twice per selected pool entry carrying it, so a pairValue occurs
exactly twice only when the selected pool values are pairwise distinct —
image cycling or the duplicated fallback icon can make a value occur 4 or
more times. -/
theorem C6_deck_generation (card_count : Nat) (images : List String)
    (out : List Card) (_hpos : 0 < card_count)
    (hperm : (generate_cards card_count images).Perm out) :
    out.length = 2 * card_count
    ∧ (∀ c ∈ generate_cards card_count images,
        c.matched = false ∧ c.flipped = false)
    ∧ (∀ v, count_value out v
        = 2 * count_str (available_values card_count images) v) := by
  refine ⟨?_, ?_, ?_⟩
  · rw [← hperm.length_eq, generate_cards_length]
  · intro c hc
    exact make_pairs_flags _ _ 0 c hc
  · intro v
    have hcount := hperm.countP_eq (fun c => c.value == v)
    unfold count_value
    rw [← hcount]
    exact make_pairs_count (available_values card_count images)
      (images.length > 0) v 0

/-- Witness for C6: a reversed (shuffled) three-pair icon deck has 6 cards
and two copies of the first icon. -/
theorem C6_deck_generation_witness :
    ((generate_cards 3 []).reverse).length = 2 * 3
    ∧ count_value ((generate_cards 3 []).reverse) "🎮" = 2 := by
  have h := C6_deck_generation 3 [] ((generate_cards 3 []).reverse) (by decide)
      (List.reverse_perm _).symm
  refine ⟨h.1, ?_⟩
  rw [h.2.2 "🎮"]
  decide

/-! Webhook signing (`webhook_service.py` lines 14-23 and the receiving
side's `verify_webhook_signature`): canonical JSON serialization with
sorted keys (`json.dumps(payload, sort_keys=True, ensure_ascii=False)`),
HMAC-SHA256 over the UTF-8 bytes, hex-encoded.  SHA-256 and HMAC are the
standard algorithms the Python `hashlib`/`hmac` libraries implement,
written out over byte lists (`Nat` below 256) and 32-bit words
(`Nat` masked to 32 bits). -/

def utf8Bytes (s : String) : List Nat :=
  s.toUTF8.toList.map (fun b => b.toNat)

def hexChar (n : Nat) : Char :=
  "0123456789abcdef".toList.getD n '0'

def byteHex (b : Nat) : String :=
  String.mk [hexChar (b / 16), hexChar (b % 16)]

/-- Python `hexdigest()`: lower-case hex of a byte list. -/
def toHex (bs : List Nat) : String :=
  String.join (bs.map byteHex)

def mask32 : Nat := 4294967295

def rotr32 (x n : Nat) : Nat :=
  ((x >>> n) ||| (x <<< (32 - n))) &&& mask32

def shr32 (x n : Nat) : Nat := x >>> n

/-- The eight 32-bit working registers of SHA-256. -/
structure SHAState where
  a : Nat
  b : Nat
  c : Nat
  d : Nat
  e : Nat
  f : Nat
  g : Nat
  h : Nat

def initH : SHAState :=
  ⟨1779033703, 3144134277, 1013904242, 2773480762,
   1359893119, 2600822924, 528734635, 1541459225⟩

def K64 : List Nat :=
  [1116352408, 1899447441, 3049323471, 3921009573,
   961987163, 1508970993, 2453635748, 2870763221,
   3624381080, 310598401, 607225278, 1426881987,
   1925078388, 2162078206, 2614888103, 3248222580,
   3835390401, 4022224774, 264347078, 604807628,
   770255983, 1249150122, 1555081692, 1996064986,
   2554220882, 2821834349, 2952996808, 3210313671,
   3336571891, 3584528711, 113926993, 338241895,
   666307205, 773529912, 1294757372, 1396182291,
   1695183700, 1986661051, 2177026350, 2456956037,
   2730485921, 2820302411, 3259730800, 3345764771,
   3516065817, 3600352804, 4094571909, 275423344,
   430227734, 506948616, 659060556, 883997877,
   958139571, 1322822218, 1537002063, 1747873779,
   1955562222, 2024104815, 2227730452, 2361852424,
   2428436474, 2756734187, 3204031479, 3329325298]

/-- Big-endian byte expansion of `v` into `n` bytes. -/
def bytesBE (n v : Nat) : List Nat :=
  (List.range n).map (fun i => (v >>> (8 * (n - 1 - i))) % 256)

/-- Word `j` (big-endian) of a 64-byte block. -/
def toWord (block : List Nat) (j : Nat) : Nat :=
  (block.getD (4 * j) 0) <<< 24 ||| (block.getD (4 * j + 1) 0) <<< 16
    ||| (block.getD (4 * j + 2) 0) <<< 8 ||| block.getD (4 * j + 3) 0

def smallSigma0 (x : Nat) : Nat := rotr32 x 7 ^^^ rotr32 x 18 ^^^ shr32 x 3
def smallSigma1 (x : Nat) : Nat := rotr32 x 17 ^^^ rotr32 x 19 ^^^ shr32 x 10
def bigSigma0 (x : Nat) : Nat := rotr32 x 2 ^^^ rotr32 x 13 ^^^ rotr32 x 22
def bigSigma1 (x : Nat) : Nat := rotr32 x 6 ^^^ rotr32 x 11 ^^^ rotr32 x 25

/-- The 64-word message schedule of one block. -/
def schedule (block : List Nat) : List Nat :=
  let w16 := (List.range 16).map (toWord block)
  (List.range 48).foldl (fun w _ =>
    let n := w.length
    w ++ [(w.getD (n - 16) 0 + smallSigma0 (w.getD (n - 15) 0)
      + w.getD (n - 7) 0 + smallSigma1 (w.getD (n - 2) 0)) &&& mask32]) w16

/-- One SHA-256 round. -/
def sha_round (s : SHAState) (kw : Nat × Nat) : SHAState :=
  let ch := (s.e &&& s.f) ^^^ ((s.e ^^^ mask32) &&& s.g)
  let t1 := (s.h + bigSigma1 s.e + ch + kw.1 + kw.2) &&& mask32
  let maj := (s.a &&& s.b) ^^^ (s.a &&& s.c) ^^^ (s.b &&& s.c)
  let t2 := (bigSigma0 s.a + maj) &&& mask32
  ⟨(t1 + t2) &&& mask32, s.a, s.b, s.c, (s.d + t1) &&& mask32, s.e, s.f, s.g⟩

/-- Compress one 64-byte block into the running hash state. -/
def compress (h0 : SHAState) (block : List Nat) : SHAState :=
  let s := (K64.zip (schedule block)).foldl sha_round h0
  ⟨(h0.a + s.a) &&& mask32, (h0.b + s.b) &&& mask32,
   (h0.c + s.c) &&& mask32, (h0.d + s.d) &&& mask32,
   (h0.e + s.e) &&& mask32, (h0.f + s.f) &&& mask32,
   (h0.g + s.g) &&& mask32, (h0.h + s.h) &&& mask32⟩

/-- Merkle-Damgard padding: 0x80, zeros to 56 mod 64, 8-byte bit length. -/
def padMessage (msg : List Nat) : List Nat :=
  let len := msg.length
  let z := (120 - ((len + 1) % 64)) % 64
  msg ++ [128] ++ List.replicate z 0 ++ bytesBE 8 (len * 8)

/-- Split into 64-byte blocks (fuel-driven structural recursion; the fuel
is instantiated with the list length, which always suffices). -/
def chunks64 : Nat → List Nat → List (List Nat)
  | 0, _ => []
  | _, [] => []
  | fuel + 1, l => l.take 64 :: chunks64 fuel (l.drop 64)

/-- SHA-256 of a byte list. -/
def sha256 (msg : List Nat) : List Nat :=
  let padded := padMessage msg
  let final := (chunks64 padded.length padded).foldl compress initH
  bytesBE 4 final.a ++ bytesBE 4 final.b ++ bytesBE 4 final.c
    ++ bytesBE 4 final.d ++ bytesBE 4 final.e ++ bytesBE 4 final.f
    ++ bytesBE 4 final.g ++ bytesBE 4 final.h

/-- HMAC-SHA256 (RFC 2104): key padded to the 64-byte block size (hashed
first if longer), inner pad 0x36, outer pad 0x5c. -/
def hmac_sha256 (key msg : List Nat) : List Nat :=
  let k1 := if 64 < key.length then sha256 key else key
  let k2 := k1 ++ List.replicate (64 - k1.length) 0
  let ipad := k2.map (fun b => b ^^^ 54)
  let opad := k2.map (fun b => b ^^^ 92)
  sha256 (opad ++ sha256 (ipad ++ msg))

/-- JSON values as Python's `json` module sees the webhook payload. -/
inductive Json where
  | null
  | bool (b : Bool)
  | num (n : Int)
  | str (s : String)
  | arr (xs : List Json)
  | obj (kvs : List (String × Json))

def hex4 (n : Nat) : String :=
  String.mk [hexChar ((n / 4096) % 16), hexChar ((n / 256) % 16),
    hexChar ((n / 16) % 16), hexChar (n % 16)]

/-- Python `json.dumps` string escaping with `ensure_ascii=False`: quote,
backslash and control characters only. -/
def escChar (c : Char) : String :=
  if c = '"' then "\\\""
  else if c = '\\' then "\\\\"
  else if c = '\n' then "\\n"
  else if c = '\t' then "\\t"
  else if c = '\r' then "\\r"
  else if c.toNat = 8 then "\\b"
  else if c.toNat = 12 then "\\f"
  else if c.toNat < 32 then "\\u" ++ hex4 c.toNat
  else String.singleton c

def jstr (s : String) : String :=
  "\"" ++ String.join (s.toList.map escChar) ++ "\""

/-- Stable insertion into a key-sorted rendered-pair list. -/
def insertPair (p : String × String) :
    List (String × String) → List (String × String)
  | [] => [p]
  | q :: rest => if q.1 < p.1 then q :: insertPair p rest else p :: q :: rest

/-- Stable sort by key — `sort_keys=True`. -/
def sortPairs : List (String × String) → List (String × String)
  | [] => []
  | p :: rest => insertPair p (sortPairs rest)

mutual

/-- Serialization of `json.dumps` with `sort_keys=True, ensure_ascii=False` and Python's
default separators (", " and ": "). -/
def dumps : Json → String
  | Json.null => "null"
  | Json.bool true => "true"
  | Json.bool false => "false"
  | Json.num n => toString n
  | Json.str s => jstr s
  | Json.arr xs => "[" ++ String.intercalate ", " (dumpsList xs) ++ "]"
  | Json.obj kvs =>
    "\x7b" ++ String.intercalate ", "
      ((sortPairs (dumpsKVs kvs)).map (fun kv => jstr kv.1 ++ ": " ++ kv.2))
      ++ "\x7d"

def dumpsList : List Json → List String
  | [] => []
  | x :: xs => dumps x :: dumpsList xs

def dumpsKVs : List (String × Json) → List (String × String)
  | [] => []
  | (k, v) :: rest => (k, dumps v) :: dumpsKVs rest

end

/-- Translation of `WebhookService.generate_signature` (webhook_service.py lines 14-23):
HMAC-SHA256 of the canonical serialization, hex-encoded. -/
def generate_signature (payload : Json) (secret : String) : String :=
  let message := dumps payload
  toHex (hmac_sha256 (utf8Bytes secret) (utf8Bytes message))

/-- Modelled from the spec (§4.5, §6): the receiver's independent
recomputation — apply the same canonicalization to the received body and
the same keyed hash with the shared secret (the `verify_webhook_signature`
of the example endpoint). -/
def verify_expected_signature (payload : Json) (secret : String) : String :=
  toHex (hmac_sha256 (utf8Bytes secret) (utf8Bytes (dumps payload)))

/-- FIPS 180-4 test vector: SHA-256 of the empty message. -/
theorem sha256_empty_vector :
    toHex (sha256 [])
      = "e3b0c44298fc1c149afbf4c8996fb92427ae41e4649b934ca495991b7852b855" := by
  decide

set_option maxRecDepth 4000 in
/-- FIPS 180-4 test vector: SHA-256 of "abc". -/
theorem sha256_abc_vector :
    toHex (sha256 [97, 98, 99])
      = "ba7816bf8f01cfea414140de5dae2223b00361a396177a9cb410ff61f20015ad" := by
  decide

set_option maxRecDepth 8000 in
/-- RFC 4231 test case 1: HMAC-SHA256 with a 20-byte 0x0b key over
"Hi There". -/
theorem hmac_sha256_rfc4231_vector :
    toHex (hmac_sha256 (List.replicate 20 11) [72, 105, 32, 84, 104, 101, 114, 101])
      = "b0344c61d8db38535ca8afceaf0bf12b881dc200c9833da726e9376c2e32cff7" := by
  decide

/-- Sorted-ness relation of the canonical key ordering. -/
def pairLe (p q : String × String) : Prop := ¬ (q.1 < p.1)

theorem insertPair_perm (p : String × String) (l : List (String × String)) :
    (insertPair p l).Perm (p :: l) := by
  induction l with
  | nil => exact List.Perm.refl _
  | cons q rest ih =>
    simp only [insertPair]
    split_ifs with h
    · exact (ih.cons q).trans (List.Perm.swap p q rest)
    · exact List.Perm.refl _

theorem sortPairs_perm (l : List (String × String)) : (sortPairs l).Perm l := by
  induction l with
  | nil => exact List.Perm.refl _
  | cons p rest ih =>
    exact (insertPair_perm p (sortPairs rest)).trans (ih.cons p)

theorem insertPair_pairwise (p : String × String) (l : List (String × String))
    (hl : l.Pairwise pairLe) : (insertPair p l).Pairwise pairLe := by
  induction l with
  | nil => exact List.pairwise_singleton _ _
  | cons q rest ih =>
    rcases List.pairwise_cons.mp hl with ⟨hq, hrest⟩
    simp only [insertPair]
    split_ifs with h
    · refine List.pairwise_cons.mpr ⟨?_, ih hrest⟩
      intro x hx
      have hx' : x = p ∨ x ∈ rest := by
        have hmem := (insertPair_perm p rest).mem_iff.mp hx
        simpa using hmem
      rcases hx' with rfl | hx'
      · exact lt_asymm h
      · exact hq x hx'
    · refine List.pairwise_cons.mpr ⟨?_, List.pairwise_cons.mpr ⟨hq, hrest⟩⟩
      intro x hx
      rcases List.mem_cons.mp hx with rfl | hx'
      · exact h
      · intro hxp
        have hle1 : p.1 ≤ q.1 := not_lt.mp h
        have hle2 : q.1 ≤ x.1 := not_lt.mp (hq x hx')
        exact absurd (lt_of_lt_of_le hxp (hle1.trans hle2)) (lt_irrefl _)

theorem sortPairs_pairwise (l : List (String × String)) :
    (sortPairs l).Pairwise pairLe := by
  induction l with
  | nil => exact List.Pairwise.nil
  | cons p rest ih => exact insertPair_pairwise p _ ih

/-- Two key-sorted pair lists that are permutations of each other and have
pairwise-distinct keys are equal. -/
theorem sorted_perm_eq : ∀ (l1 l2 : List (String × String)),
    l1.Pairwise pairLe → l2.Pairwise pairLe → l1.Perm l2 →
    (l1.map Prod.fst).Nodup → l1 = l2 := by
  intro l1
  induction l1 with
  | nil =>
    intro l2 _ _ hperm _
    have := hperm.length_eq
    cases l2 with
    | nil => rfl
    | cons q t2 => simp at this
  | cons p t1 ih =>
    intro l2 h1 h2 hperm hnd
    cases l2 with
    | nil =>
      have := hperm.length_eq
      simp at this
    | cons q t2 =>
      have hnd0 : (p.1 :: t1.map Prod.fst).Nodup := by
        rw [List.map_cons] at hnd
        exact hnd
      have hnd' := List.nodup_cons.mp hnd0
      have hpq : p = q := by
        by_contra hne
        have hq1 : q ∈ p :: t1 := hperm.symm.subset (List.mem_cons_self q t2)
        have hp2 : p ∈ q :: t2 := hperm.subset (List.mem_cons_self p t1)
        have hq : q ∈ t1 := by
          rcases List.mem_cons.mp hq1 with h | h
          · exact absurd h.symm hne
          · exact h
        have hp : p ∈ t2 := by
          rcases List.mem_cons.mp hp2 with h | h
          · exact absurd h hne
          · exact h
        have hle1 : pairLe p q := (List.pairwise_cons.mp h1).1 q hq
        have hle2 : pairLe q p := (List.pairwise_cons.mp h2).1 p hp
        have hkey : p.1 = q.1 := le_antisymm (not_lt.mp hle1) (not_lt.mp hle2)
        have hmem : p.1 ∈ t1.map Prod.fst := by
          rw [hkey]
          exact List.mem_map_of_mem Prod.fst hq
        exact hnd'.1 hmem
      subst hpq
      have ht : t1.Perm t2 := hperm.cons_inv
      have hrec := ih t2 (List.pairwise_cons.mp h1).2 (List.pairwise_cons.mp h2).2 ht hnd'.2
      rw [hrec]

theorem dumpsKVs_eq_map (l : List (String × Json)) :
    dumpsKVs l = l.map (fun kv => (kv.1, dumps kv.2)) := by
  induction l with
  | nil => rfl
  | cons kv rest ih =>
    cases kv
    simp [dumpsKVs, ih]

theorem dumpsKVs_keys (l : List (String × Json)) :
    (dumpsKVs l).map Prod.fst = l.map Prod.fst := by
  rw [dumpsKVs_eq_map, List.map_map]
  rfl

/-- Canonicalization is insensitive to the insertion order of object keys:
two payload objects holding the same key-value pairs (distinct keys) in any
order serialize identically. -/
theorem dumps_obj_perm (kvs kvs' : List (String × Json)) (hperm : kvs.Perm kvs')
    (hnd : (kvs.map Prod.fst).Nodup) :
    dumps (Json.obj kvs) = dumps (Json.obj kvs') := by
  have h1 : (dumpsKVs kvs).Perm (dumpsKVs kvs') := by
    rw [dumpsKVs_eq_map, dumpsKVs_eq_map]
    exact hperm.map _
  have hnd1 : ((sortPairs (dumpsKVs kvs)).map Prod.fst).Nodup := by
    have hp : ((sortPairs (dumpsKVs kvs)).map Prod.fst).Perm
        ((dumpsKVs kvs).map Prod.fst) := (sortPairs_perm _).map _
    rw [hp.nodup_iff, dumpsKVs_keys]
    exact hnd
  have hs : sortPairs (dumpsKVs kvs) = sortPairs (dumpsKVs kvs') :=
    sorted_perm_eq _ _ (sortPairs_pairwise _) (sortPairs_pairwise _)
      ((sortPairs_perm _).trans (h1.trans (sortPairs_perm _).symm)) hnd1
  simp only [dumps]
  rw [hs]

/-- Claim C9: webhook signing is deterministic and reproducible — signing
the same canonicalized payload twice with the same secret gives the same
hex signature, an independent receiver applying the same canonicalization
and keyed hash recomputes the identical signature, and the canonical
serialization (hence the signature) does not depend on the insertion order
of the payload's keys. -/
theorem C9_signature_reproducible :
    (∀ payload secret,
      generate_signature payload secret = generate_signature payload secret
      ∧ generate_signature payload secret = verify_expected_signature payload secret)
    ∧ (∀ (kvs kvs' : List (String × Json)) (secret : String),
        kvs.Perm kvs' → (kvs.map Prod.fst).Nodup →
        generate_signature (Json.obj kvs) secret
          = generate_signature (Json.obj kvs') secret) := by
  constructor
  · intro p s
    exact ⟨rfl, rfl⟩
  · intro kvs kvs' secret hperm hnd
    unfold generate_signature
    rw [dumps_obj_perm kvs kvs' hperm hnd]

/-- Witness for C9: the same two-field payload written with its keys in
either order signs to the same signature. -/
theorem C9_signature_reproducible_witness :
    generate_signature (Json.obj [("b", Json.num 1), ("a", Json.bool true)]) "s3cret"
      = generate_signature (Json.obj [("a", Json.bool true), ("b", Json.num 1)]) "s3cret" :=
  C9_signature_reproducible.2 _ _ "s3cret" (List.Perm.swap _ _ _) (by decide)
